import Mathlib

/-!
# Si468x tuner driver (SI468x.h): data model, protocol engine, firmware loader,
ensemble decoder and navigator

The header `SI468x.h` declares the constants, the bit-field records and the
prototypes of the driver.  The constants and records below are transcribed
from the header.  The bodies of the driver functions are not part of the
header; each function whose body is missing is modelled from the driver's
specification and is marked as such in its doc comment.
-/

namespace SI468x

/-! ## Constants of the header -/

/-- Max numbers of retry when chip is busy: `enum MAX_RETRY {MAX_RETRY = 10}`. -/
def MAX_RETRY : Nat := 10

/-- Start-up delay of `durationsDevice_t`, microseconds. -/
def DURATION_RESET : Nat := 5000
/-- Power-up delay of `durationsDevice_t`, microseconds. -/
def DURATION_POWER_UP : Nat := 3000
/-- Reply poll interval of `durationsDevice_t`, microseconds. -/
def DURATION_REPLY : Nat := 3000
/-- Settle time after LOAD_INIT of `durationsDevice_t`, microseconds. -/
def DURATION_LOAD_INIT : Nat := 4000
/-- Boot delay of `durationsDevice_t`, microseconds. -/
def DURATION_BOOT : Nat := 10000
/-- Property delay of `durationsDevice_t`, microseconds. -/
def DURATION_PROPERTY : Nat := 10000

/-- Maximal number of indices in table (`constantsDab_t`). -/
def MAX_INDEX : Nat := 48
/-- Ceiling on stored services (`constantsDab_t`), "to ETSI standard<=32". -/
def MAX_NUMBER_SERVICES : Nat := 20
/-- Ceiling on stored components (`constantsDab_t`), "to ETSI standard<=15". -/
def MAX_NUMBER_COMPONENTS : Nat := 4

/-- Opcode `READ_REPLY` of `COMMANDS_DEVICE`. -/
def READ_REPLY : Nat := 0x00
/-- Opcode `POWER_UP` of `COMMANDS_DEVICE`. -/
def POWER_UP : Nat := 0x01
/-- Opcode `FLASH_LOAD` of `COMMANDS_DEVICE`. -/
def FLASH_LOAD : Nat := 0x05
/-- Opcode `LOAD_INIT` of `COMMANDS_DEVICE`. -/
def LOAD_INIT : Nat := 0x06
/-- Opcode `BOOT` of `COMMANDS_DEVICE`. -/
def BOOT : Nat := 0x07

/-- Storing a value in an unsigned field of the given width in bits keeps the
value modulo two to the power of the width. -/
def storeField (width value : Nat) : Nat := value % 2 ^ width

/-! ## Status register -/

/-- The record `statusRegister_t`: every bit-field is a natural number below
two to the power of its declared width. -/
structure statusRegister_t where
  cts : Nat
  cmdErr : Nat
  dacqInt : Nat
  dsrvInt : Nat
  stcInt : Nat
  eventInt : Nat
  state : Nat
  rfFeErr : Nat
  dspErr : Nat
  repOfErr : Nat
  cmdOfErr : Nat
  arbErr : Nat
  nonRecErr : Nat
  cmdErrCode : Nat
deriving DecidableEq

/-- The three bytes of a status reply as the device sends them. -/
structure StatusBytes where
  b0 : Nat
  b1 : Nat
  b2 : Nat
deriving DecidableEq

/-- Modelled from the spec: the body of `readStatusRegister` is missing from
the header.  The status register arrives as 3 bytes, bit-packed in the order
of the fields of `statusRegister_t`, the low bit of the first byte being
clear-to-send; every field is cut to its declared width. -/
def readStatusRegister (r : StatusBytes) : statusRegister_t :=
  { cts        := r.b0 % 2
    cmdErr     := r.b0 / 2 % 2
    dacqInt    := r.b0 / 4 % 2
    dsrvInt    := r.b0 / 8 % 2
    stcInt     := r.b0 / 16 % 2
    eventInt   := r.b0 / 32 % 2
    state      := r.b0 / 64 % 4
    rfFeErr    := r.b1 % 2
    dspErr     := r.b1 / 2 % 2
    repOfErr   := r.b1 / 4 % 2
    cmdOfErr   := r.b1 / 8 % 2
    arbErr     := r.b1 / 16 % 2
    nonRecErr  := r.b1 / 32 % 2
    cmdErrCode := r.b2 % 256 }

/-! ## Protocol engine -/

/-- What the engine does on the bus, in order. -/
inductive BusEvent where
  | resetPulse
  | delay (us : Nat)
  | writeCommand (opcode : Nat) (args : List Nat)
  | readReply (len : Nat)
deriving DecidableEq

/-- The two failures of a command exchange. -/
inductive EngineError where
  | busyTimeout
  | commandError (code : Nat)
deriving DecidableEq

/-- Number of reply reads in a bus trace. -/
def replyReads : List BusEvent → Nat
  | [] => 0
  | .readReply _ :: t => replyReads t + 1
  | _ :: t => replyReads t

/-- Number of command writes in a bus trace. -/
def commandWrites : List BusEvent → Nat
  | [] => 0
  | .writeCommand _ _ :: t => commandWrites t + 1
  | _ :: t => commandWrites t

/-- Modelled from the spec: the polling loop of `readReply` is missing from the
header.  Each attempt waits the poll interval `DURATION_REPLY`, issues a
reply-read and decodes the 3-byte status register; polling stops when
clear-to-send is set, and then a set command-error bit fails with the 8-bit
error code; when the attempts are used up the poll fails with Busy/Timeout.
`dev k` is the status reply of the device to the reply-read number `k`,
`left` the attempts that remain. -/
def busyPoll (dev : Nat → StatusBytes) :
    Nat → Nat → List BusEvent → Except EngineError statusRegister_t × List BusEvent
  | 0, _, tr => (.error .busyTimeout, tr)
  | left + 1, k, tr =>
    let tr1 := tr ++ [.delay DURATION_REPLY, .readReply 3]
    let st := readStatusRegister (dev k)
    if st.cts = 1 then
      if st.cmdErr = 1 then (.error (.commandError st.cmdErrCode), tr1)
      else (.ok st, tr1)
    else busyPoll dev left (k + 1) tr1

/-- Modelled from the spec: the body of `readReply` is missing from the header.
The busy-poll with the retry ceiling `MAX_RETRY`, continuing the bus trace
`tr`. -/
def readReply (dev : Nat → StatusBytes) (tr : List BusEvent) :
    Except EngineError statusRegister_t × List BusEvent :=
  busyPoll dev MAX_RETRY 0 tr

/-- Modelled from the spec: the body of `writeCommandArgument` is missing from
the header.  The opcode and its arguments are written in one bus transaction. -/
def writeCommandArgument (opcode : Nat) (args : List Nat) : List BusEvent :=
  [.writeCommand opcode args]

/-- Modelled from the spec: one command exchange of the protocol engine, the
command write followed by the busy-poll of `readReply`. -/
def exchange (opcode : Nat) (args : List Nat) (dev : Nat → StatusBytes) :
    Except EngineError statusRegister_t × List BusEvent :=
  readReply dev (writeCommandArgument opcode args)

/-! ## Firmware loader -/

/-- Page size of the flash device; the changelog of the header records that
`loadFirmware` "works only with 0x100 because of flash (pagewise)". -/
def FLASH_PAGE_SIZE : Nat := 0x100

/-- Modelled from the spec: the bodies of the loader's steps are missing from
the header.  One step of the loader: write the command with its arguments,
hold the step's settle time, then run the standard busy-poll.  `dev j` is the
device's sequence of status replies within the exchange number `j`; the number
of the exchange is the number of commands written before it. -/
def loaderStep (dev : Nat → Nat → StatusBytes) (tr : List BusEvent) (opcode : Nat)
    (args : List Nat) (settle : List BusEvent) :
    Except EngineError statusRegister_t × List BusEvent :=
  readReply (dev (commandWrites tr)) (tr ++ writeCommandArgument opcode args ++ settle)

/-- Modelled from the spec: the body of `flashLoad` is missing from the header.
One flash-load command with the flash address (an `unsigned long`, 32 bits) and
the sub-command (an `unsigned char`) as arguments, followed by the busy-poll. -/
def flashLoad (dev : Nat → Nat → StatusBytes) (tr : List BusEvent) (address : Nat)
    (subCommand : Nat) : Except EngineError statusRegister_t × List BusEvent :=
  loaderStep dev tr FLASH_LOAD [storeField 32 address, storeField 8 subCommand] []

/-- Modelled from the spec: the page loop of `loadFirmware` is missing from the
header.  One flash-load command per page with the current flash address,
advancing the address by the page size until the declared image size is
exhausted; a failed page step aborts the load.  The first argument bounds the
number of pages (every page consumes at least one byte of the image). -/
def flashLoadPages (dev : Nat → Nat → StatusBytes) :
    Nat → Nat → Nat → List BusEvent → Except EngineError Unit × List BusEvent
  | 0, _, _, tr => (.ok (), tr)
  | fuel + 1, address, remaining, tr =>
    if remaining = 0 then (.ok (), tr)
    else
      match flashLoad dev tr address 0 with
      | (.error e, tr1) => (.error e, tr1)
      | (.ok _, tr1) =>
        flashLoadPages dev fuel (address + FLASH_PAGE_SIZE) (remaining - FLASH_PAGE_SIZE) tr1

/-- Modelled from the spec: the body of `loadFirmware` is missing from the
header.  The strictly ordered sequence RESET, POWER_UP, LOAD_INIT, FLASH_LOAD
(page by page), BOOT; the error of any step halts the sequence.  The bytes of
the global `powerUpArguments` are the parameter of that name. -/
def loadFirmware (dev : Nat → Nat → StatusBytes) (powerUpArguments : List Nat)
    (addressFirmware sizeFirmware : Nat) : Except EngineError Unit × List BusEvent :=
  match loaderStep dev [.resetPulse, .delay DURATION_RESET] POWER_UP powerUpArguments
      [.delay DURATION_POWER_UP] with
  | (.error e, tr1) => (.error e, tr1)
  | (.ok _, tr1) =>
    match loaderStep dev tr1 LOAD_INIT [] [.delay DURATION_LOAD_INIT] with
    | (.error e, tr2) => (.error e, tr2)
    | (.ok _, tr2) =>
      match flashLoadPages dev sizeFirmware addressFirmware sizeFirmware tr2 with
      | (.error e, tr3) => (.error e, tr3)
      | (.ok _, tr3) =>
        match loaderStep dev tr3 BOOT [] [] with
        | (.error e, tr4) => (.error e, tr4)
        | (.ok _, tr4) => (.ok (), tr4)

/-- The address arguments of the flash-load commands of a bus trace, in order. -/
def flashLoadAddresses : List BusEvent → List Nat
  | [] => []
  | .writeCommand opcode args :: t =>
    if opcode = FLASH_LOAD then args.headD 0 :: flashLoadAddresses t
    else flashLoadAddresses t
  | _ :: t => flashLoadAddresses t

/-- A device completes an exchange when the busy-poll over its status replies
ends with clear-to-send and no command error within the retry ceiling. -/
def completes (d : Nat → StatusBytes) : Bool :=
  match (readReply d []).1 with
  | .ok _ => true
  | .error _ => false

/-! ## Ensemble hierarchy -/

/-- The record `componentList_t`; the bit-fields are natural numbers. -/
structure componentList_t where
  componentId : Nat
  secondaryFlag : Nat
  conditionalAccessFlag : Nat
  serviceType : Nat
  validFlag : Nat
deriving DecidableEq

/-- The record `serviceList_t`; the pointer `componentList` is `none` for
`nullptr` and otherwise owns the component sequence. -/
structure serviceList_t where
  serviceId : Nat
  dataFlag : Nat
  numComponents : Nat
  componentList : Option (List componentList_t)
deriving DecidableEq

/-- The record `ensembleHeader_t`; the pointer `serviceList` is `none` for
`nullptr` and otherwise owns the service sequence. -/
structure ensembleHeader_t where
  actualService : Nat
  actualComponent : Nat
  listSize : Nat
  version : Nat
  numServices : Nat
  serviceList : Option (List serviceList_t)
deriving DecidableEq

/-- One component record of the device's service-list reply. -/
structure WireComponent where
  componentId : Nat
  secondaryFlag : Nat
  conditionalAccessFlag : Nat
  serviceType : Nat
  validFlag : Nat

/-- One service record of the device's service-list reply: the fixed prefix and
the component records, by index. -/
structure WireService where
  serviceId : Nat
  dataFlag : Nat
  numComponents : Nat
  component : Nat → WireComponent

/-- What the simulated device answers to the service-list queries: the header
(list size, version, service count) and the service record for each index. -/
structure DabDevice where
  listSize : Nat
  version : Nat
  numServices : Nat
  service : Nat → WireService

/-- Modelled from the spec: the component decode of `getEnsemble` is missing
from the header.  Every field is cut to the width `componentList_t` declares. -/
def decodeComponent (w : WireComponent) : componentList_t :=
  { componentId := storeField 16 w.componentId
    secondaryFlag := storeField 1 w.secondaryFlag
    conditionalAccessFlag := storeField 1 w.conditionalAccessFlag
    serviceType := storeField 6 w.serviceType
    validFlag := storeField 1 w.validFlag }

/-- Modelled from the spec: the service decode of `getEnsemble` is missing from
the header.  The fixed prefix (id, data flag, component count) is followed by
the component records; components beyond `MAX_NUMBER_COMPONENTS` are dropped. -/
def decodeService (w : WireService) : serviceList_t :=
  { serviceId := storeField 32 w.serviceId
    dataFlag := storeField 1 w.dataFlag
    numComponents := storeField 4 (min w.numComponents MAX_NUMBER_COMPONENTS)
    componentList := some ((List.range (min w.numComponents MAX_NUMBER_COMPONENTS)).map
      (fun j => decodeComponent (w.component j))) }

/-- Modelled from the spec: the body of `getEnsembleHeader` is missing from the
header.  It stores list size, version and service count only, each in its
declared width (16, 16 and 8 bits). -/
def getEnsembleHeader (dev : DabDevice) (h : ensembleHeader_t) (_serviceType : Nat) :
    ensembleHeader_t :=
  { h with
    listSize := storeField 16 dev.listSize
    version := storeField 16 dev.version
    numServices := storeField 8 dev.numServices }

/-- Modelled from the spec: the body of `getEnsemble` is missing from the
header.  The header is queried first to learn the service count; the count is
cut to `MAX_NUMBER_SERVICES`; a service sequence of that size is allocated and
for each service index the device's record is decoded into the slot of that
index.  The result is the header (the only output of the declared
`void getEnsemble(ensembleHeader_t&, unsigned char)`) and the log of the slot
writes: slot index and record written. -/
def getEnsemble (dev : DabDevice) (h : ensembleHeader_t) (serviceType : Nat) :
    ensembleHeader_t × List (Nat × serviceList_t) :=
  let h1 := getEnsembleHeader dev h serviceType
  let count := min h1.numServices MAX_NUMBER_SERVICES
  let writes := (List.range count).map (fun i => (i, decodeService (dev.service i)))
  ({ h1 with
      actualService := 0
      actualComponent := 0
      numServices := storeField 8 count
      serviceList := some (writes.map Prod.snd) },
   writes)

/-- What `freeMemoryFromEnsembleList` hands back to the allocator: the
component sequence of the service with the given index, or the service
sequence. -/
inductive Release where
  | componentSequence (service : Nat)
  | serviceSequence
deriving DecidableEq

/-- The component sequences of the services from index `i` on, released in
order; `delete[]` of a `nullptr` releases nothing. -/
def releaseComponents : List serviceList_t → Nat → List Release
  | [], _ => []
  | s :: rest, i =>
    match s.componentList with
    | some _ => .componentSequence i :: releaseComponents rest (i + 1)
    | none => releaseComponents rest (i + 1)

/-- Modelled from the spec: the body of `freeMemoryFromEnsembleList` is missing
from the header.  When the header owns a service sequence, every component
sequence is released, then the service sequence; the header is left cleared
(no service list, service count 0, cursor 0).  The log lists the releases. -/
def freeMemoryFromEnsembleList (h : ensembleHeader_t) : ensembleHeader_t × List Release :=
  let cleared : ensembleHeader_t :=
    { h with actualService := 0, actualComponent := 0, numServices := 0, serviceList := none }
  match h.serviceList with
  | none => (cleared, [])
  | some services => (cleared, releaseComponents services 0 ++ [.serviceSequence])

/-! ## Navigator -/

/-- Modelled from the spec: the body of `nextService` is missing from the
header.  The cursor `actualService` (an `unsigned char`) advances by one modulo
the service count. -/
def nextService (h : ensembleHeader_t) : ensembleHeader_t :=
  { h with actualService := storeField 8 ((h.actualService + 1) % h.numServices) }

/-- Modelled from the spec: the body of `previousService` is missing from the
header.  The cursor `actualService` (an `unsigned char`) goes back by one
modulo the service count. -/
def previousService (h : ensembleHeader_t) : ensembleHeader_t :=
  { h with
    actualService := storeField 8 ((h.actualService + h.numServices - 1) % h.numServices) }

/-! ## Sample inputs -/

/-- A header that owns nothing. -/
def emptyHeader : ensembleHeader_t :=
  { actualService := 0, actualComponent := 0, listSize := 0, version := 0,
    numServices := 0, serviceList := none }

/-- An audio service with one valid primary component. -/
def sampleService (i : Nat) : WireService :=
  { serviceId := 0xD000 + i
    dataFlag := 0
    numComponents := 1
    component := fun j =>
      { componentId := j, secondaryFlag := 0, conditionalAccessFlag := 0,
        serviceType := 0, validFlag := 1 } }

/-- A decoded header of three services with the cursor on the first. -/
def threeServices : ensembleHeader_t :=
  (getEnsemble { listSize := 90, version := 1, numServices := 3, service := sampleService }
    emptyHeader 0).1

/-! ## Bit-field records of the header -/

/-- What a bit-field of a status or event record is for, after its name and
its comment in the header. -/
inductive FieldKind where
  | clearToSend
  | interruptFlag
  | bootState
  | errorFlag
  | errorCode
  | availableFlag
  | versionCounter
deriving DecidableEq

/-- One bit-field declaration: name, declared width in bits, kind. -/
structure BitField where
  name : String
  width : Nat
  kind : FieldKind
deriving DecidableEq

/-- The bit-fields of `struct statusRegister_t` in declaration order.  The
fields named `...Int` are the interrupt indicators, the one-bit fields named
`...Err` the error flags. -/
def statusRegister_t_fields : List BitField :=
  [ ⟨"cts", 1, .clearToSend⟩,
    ⟨"cmdErr", 1, .errorFlag⟩,
    ⟨"dacqInt", 1, .interruptFlag⟩,
    ⟨"dsrvInt", 1, .interruptFlag⟩,
    ⟨"stcInt", 1, .interruptFlag⟩,
    ⟨"eventInt", 1, .interruptFlag⟩,
    ⟨"state", 2, .bootState⟩,
    ⟨"rfFeErr", 1, .errorFlag⟩,
    ⟨"dspErr", 1, .errorFlag⟩,
    ⟨"repOfErr", 1, .errorFlag⟩,
    ⟨"cmdOfErr", 1, .errorFlag⟩,
    ⟨"arbErr", 1, .errorFlag⟩,
    ⟨"nonRecErr", 1, .errorFlag⟩,
    ⟨"cmdErrCode", 8, .errorCode⟩ ]

/-- The bit-fields of `struct eventInformation_t` in declaration order.  The
fields named `...Interrupt` are interrupt flags, the fields named
`...Available` availability flags. -/
def eventInformation_t_fields : List BitField :=
  [ ⟨"ensembleReconfigInterrupt", 1, .interruptFlag⟩,
    ⟨"ensembleReconfigWarningInterrupt", 1, .interruptFlag⟩,
    ⟨"announcementInterrupt", 1, .interruptFlag⟩,
    ⟨"otherServiceInterrupt", 1, .interruptFlag⟩,
    ⟨"serviceLinkingInterrupt", 1, .interruptFlag⟩,
    ⟨"frequencyInterrupt", 1, .interruptFlag⟩,
    ⟨"serviceListInterrupt", 1, .interruptFlag⟩,
    ⟨"announcementAvailable", 1, .availableFlag⟩,
    ⟨"otherServiceAvailable", 1, .availableFlag⟩,
    ⟨"serviceLinkingAvailable", 1, .availableFlag⟩,
    ⟨"frequencyAvailable", 1, .availableFlag⟩,
    ⟨"serviceListAvailable", 1, .availableFlag⟩,
    ⟨"currentServiceListVersion", 16, .versionCounter⟩ ]

/-- Number of fields of the given kind and width. -/
def countFields (kind : FieldKind) (width : Nat) (fields : List BitField) : Nat :=
  (fields.filter (fun f => decide (f.kind = kind ∧ f.width = width))).length

/-- Number of fields of the given width, whatever their kind. -/
def countWidth (width : Nat) (fields : List BitField) : Nat :=
  (fields.filter (fun f => decide (f.width = width))).length

/-- Sum of the declared widths. -/
def totalBits (fields : List BitField) : Nat :=
  (fields.map (fun f => f.width)).sum

/-- Where a bit-field lies: byte index, first bit within the byte (0 is the low
bit), width. -/
structure Placement where
  name : String
  byte : Nat
  bit : Nat
  width : Nat
deriving DecidableEq

/-- Packing in declaration order from bit position `pos`, low bit first: a
field that would cross a byte boundary starts at the next byte. -/
def packFields : List BitField → Nat → List Placement
  | [], _ => []
  | f :: rest, pos =>
    let start := if pos % 8 + f.width ≤ 8 then pos else (pos / 8 + 1) * 8
    ⟨f.name, start / 8, start % 8, f.width⟩ :: packFields rest (start + f.width)

/-- Number of bytes the packed fields occupy. -/
def packedBytes (fields : List BitField) : Nat :=
  ((packFields fields 0).map (fun p => p.byte + (p.bit + p.width + 7) / 8)).foldl max 0

/-! ## Wire-format maxima and count fields -/

/-- Services an ensemble holds on the wire: `numServices; //N<=32`. -/
def WIRE_MAX_SERVICES : Nat := 32
/-- Components a service holds on the wire: `numComponents: 4; //... (M <= 15)`. -/
def WIRE_MAX_COMPONENTS : Nat := 15
/-- Indices of a frequency table on the wire: `index; //Max 47`, so 48. -/
def WIRE_MAX_INDICES : Nat := 48

/-- Width of `ensembleHeader_t.numServices` (`unsigned char`). -/
def NUM_SERVICES_BITS : Nat := 8
/-- Width of `serviceList_t.numComponents` (`unsigned char numComponents: 4`). -/
def NUM_COMPONENTS_BITS : Nat := 4
/-- Width of `indexListHeader_t.size` (`uint8_t`). -/
def INDEX_LIST_SIZE_BITS : Nat := 8

/-! ## Command codes -/

/-- Opcode `HOST_LOAD` of `COMMANDS_DEVICE`. -/
def HOST_LOAD : Nat := 0x04
/-- Opcode `GET_PART_INFO` of `COMMANDS_DEVICE`. -/
def GET_PART_INFO : Nat := 0x08
/-- Opcode `GET_SYS_STATE` of `COMMANDS_DEVICE`. -/
def GET_SYS_STATE : Nat := 0x09
/-- Opcode `GET_POWER_UP_ARGS` of `COMMANDS_DEVICE`. -/
def GET_POWER_UP_ARGS : Nat := 0x0A
/-- Opcode `READ_OFFSET` of `COMMANDS_DEVICE`. -/
def READ_OFFSET : Nat := 0x10
/-- Opcode `GET_FUNC_INFO` of `COMMANDS_DEVICE`. -/
def GET_FUNC_INFO : Nat := 0x12
/-- Opcode `SET_PROPERTY` of `COMMANDS_DEVICE`. -/
def SET_PROPERTY : Nat := 0x13
/-- Opcode `GET_PROPERTY` of `COMMANDS_DEVICE`. -/
def GET_PROPERTY : Nat := 0x14
/-- Opcode `WRITE_STORAGE` of `COMMANDS_DEVICE`. -/
def WRITE_STORAGE : Nat := 0x15
/-- Opcode `READ_STORAGE` of `COMMANDS_DEVICE`. -/
def READ_STORAGE : Nat := 0x16
/-- Opcode `TEST_GET_RSSI` of `COMMANDS_DEVICE`. -/
def TEST_GET_RSSI : Nat := 0xE5

/-- The enumerators of `enum COMMANDS_DEVICE` with their codes, in declaration
order. -/
def COMMANDS_DEVICE : List (String × Nat) :=
  [ ("READ_REPLY", READ_REPLY), ("POWER_UP", POWER_UP), ("HOST_LOAD", HOST_LOAD),
    ("FLASH_LOAD", FLASH_LOAD), ("LOAD_INIT", LOAD_INIT), ("BOOT", BOOT),
    ("GET_PART_INFO", GET_PART_INFO), ("GET_SYS_STATE", GET_SYS_STATE),
    ("GET_POWER_UP_ARGS", GET_POWER_UP_ARGS), ("READ_OFFSET", READ_OFFSET),
    ("GET_FUNC_INFO", GET_FUNC_INFO), ("SET_PROPERTY", SET_PROPERTY),
    ("GET_PROPERTY", GET_PROPERTY), ("WRITE_STORAGE", WRITE_STORAGE),
    ("READ_STORAGE", READ_STORAGE), ("TEST_GET_RSSI", TEST_GET_RSSI) ]

/-- The enumerators of `enum COMMANDS_DAB` with their codes, in declaration
order. -/
def COMMANDS_DAB : List (String × Nat) :=
  [ ("GET_DIGITAL_SERVICE_LIST", 0x80), ("START_DIGITAL_SERVICE", 0x81),
    ("STOP_DIGITAL_SERVICE", 0x82), ("GET_DIGITAL_SERVICE_DATA", 0x84),
    ("DAB_TUNE_FREQ", 0xB0), ("DAB_DIGRAD_STATUS", 0xB2), ("DAB_GET_EVENT_STATUS", 0xB3),
    ("DAB_GET_ENSEMBLE_INFO", 0xB4), ("DAB_GET_ANNOUNCEMENT_SUPPORT_INFO", 0xB5),
    ("DAB_GET_ANNOUNCEMENT_INFO", 0xB6), ("DAB_GET_SERVICE_LINKING_INFO", 0xB7),
    ("DAB_SET_FREQ_LIST", 0xB8), ("DAB_GET_FREQ_LIST", 0xB9),
    ("DAB_GET_COMPONENT_INFO", 0xBB), ("DAB_GET_TIME", 0xBC), ("DAB_GET_AUDIO_INFO", 0xBD),
    ("DAB_GET_SUBCHAN_INFO", 0xBE), ("DAB_GET_FREQ_INFO", 0xBF),
    ("DAB_GET_SERVICE_INFO", 0xC0), ("DAB_GET_OE_SERVICES_INFO", 0xC1),
    ("DAB_ACF_STATUS", 0xC2), ("DAB_TEST_GET_BER_INFO", 0xE8) ]

/-- The enumerators of `enum COMMANDS_FM` with their codes, in declaration
order. -/
def COMMANDS_FM : List (String × Nat) :=
  [ ("FM_TUNE_FREQ", 0x30), ("FM_SEEK_START", 0x31), ("FM_RSQ_STATUS", 0x32),
    ("FM_ACF_STATUS", 0x33), ("FM_RDS_STATUS", 0x34), ("FM_RDS_BLOCKCOUNT", 0x35) ]

/-- The codes of all commands of the three enums. -/
def commandCodes : List Nat :=
  (COMMANDS_DEVICE ++ COMMANDS_DAB ++ COMMANDS_FM).map Prod.snd

/-! ## Channels and frequency tables -/

/-- Channel 5A of `enum VHF_Band_III`, kHz. -/
def CHAN_5A : Nat := 174928
/-- Channel 5B of `enum VHF_Band_III`, kHz. -/
def CHAN_5B : Nat := 176640
/-- Channel 5C of `enum VHF_Band_III`, kHz. -/
def CHAN_5C : Nat := 178352
/-- Channel 5D of `enum VHF_Band_III`, kHz. -/
def CHAN_5D : Nat := 180064
/-- Channel 6A of `enum VHF_Band_III`, kHz. -/
def CHAN_6A : Nat := 181936
/-- Channel 6B of `enum VHF_Band_III`, kHz. -/
def CHAN_6B : Nat := 183648
/-- Channel 6C of `enum VHF_Band_III`, kHz. -/
def CHAN_6C : Nat := 185360
/-- Channel 6D of `enum VHF_Band_III`, kHz. -/
def CHAN_6D : Nat := 187072
/-- Channel 7A of `enum VHF_Band_III`, kHz. -/
def CHAN_7A : Nat := 188928
/-- Channel 7B of `enum VHF_Band_III`, kHz. -/
def CHAN_7B : Nat := 190640
/-- Channel 7C of `enum VHF_Band_III`, kHz. -/
def CHAN_7C : Nat := 192352
/-- Channel 7D of `enum VHF_Band_III`, kHz. -/
def CHAN_7D : Nat := 194064
/-- Channel 8A of `enum VHF_Band_III`, kHz. -/
def CHAN_8A : Nat := 195936
/-- Channel 8B of `enum VHF_Band_III`, kHz. -/
def CHAN_8B : Nat := 197648
/-- Channel 8C of `enum VHF_Band_III`, kHz. -/
def CHAN_8C : Nat := 199360
/-- Channel 8D of `enum VHF_Band_III`, kHz. -/
def CHAN_8D : Nat := 201072
/-- Channel 9A of `enum VHF_Band_III`, kHz. -/
def CHAN_9A : Nat := 202928
/-- Channel 9B of `enum VHF_Band_III`, kHz. -/
def CHAN_9B : Nat := 204640
/-- Channel 9C of `enum VHF_Band_III`, kHz. -/
def CHAN_9C : Nat := 206352
/-- Channel 9D of `enum VHF_Band_III`, kHz. -/
def CHAN_9D : Nat := 208064
/-- Channel 10A of `enum VHF_Band_III`, kHz. -/
def CHAN_10A : Nat := 209936
/-- Channel 10N of `enum VHF_Band_III`, kHz. -/
def CHAN_10N : Nat := 210096
/-- Channel 10B of `enum VHF_Band_III`, kHz. -/
def CHAN_10B : Nat := 211648
/-- Channel 10C of `enum VHF_Band_III`, kHz. -/
def CHAN_10C : Nat := 213360
/-- Channel 10D of `enum VHF_Band_III`, kHz. -/
def CHAN_10D : Nat := 215072
/-- Channel 11A of `enum VHF_Band_III`, kHz. -/
def CHAN_11A : Nat := 216928
/-- Channel 11N of `enum VHF_Band_III`, kHz. -/
def CHAN_11N : Nat := 217088
/-- Channel 11B of `enum VHF_Band_III`, kHz. -/
def CHAN_11B : Nat := 218640
/-- Channel 11C of `enum VHF_Band_III`, kHz. -/
def CHAN_11C : Nat := 220352
/-- Channel 11D of `enum VHF_Band_III`, kHz. -/
def CHAN_11D : Nat := 222064
/-- Channel 12A of `enum VHF_Band_III`, kHz. -/
def CHAN_12A : Nat := 223936
/-- Channel 12N of `enum VHF_Band_III`, kHz. -/
def CHAN_12N : Nat := 224096
/-- Channel 12B of `enum VHF_Band_III`, kHz. -/
def CHAN_12B : Nat := 225648
/-- Channel 12C of `enum VHF_Band_III`, kHz. -/
def CHAN_12C : Nat := 227360
/-- Channel 12D of `enum VHF_Band_III`, kHz. -/
def CHAN_12D : Nat := 229072
/-- Channel 13A of `enum VHF_Band_III`, kHz. -/
def CHAN_13A : Nat := 230784
/-- Channel 13B of `enum VHF_Band_III`, kHz. -/
def CHAN_13B : Nat := 232496
/-- Channel 13C of `enum VHF_Band_III`, kHz. -/
def CHAN_13C : Nat := 234208
/-- Channel 13D of `enum VHF_Band_III`, kHz. -/
def CHAN_13D : Nat := 235776
/-- Channel 13E of `enum VHF_Band_III`, kHz. -/
def CHAN_13E : Nat := 237488
/-- Channel 13F of `enum VHF_Band_III`, kHz. -/
def CHAN_13F : Nat := 239200

/-- The enumerators of `enum VHF_Band_III` in declaration order. -/
def VHF_Band_III : List Nat :=
  [ CHAN_5A, CHAN_5B, CHAN_5C, CHAN_5D, CHAN_6A, CHAN_6B, CHAN_6C, CHAN_6D,
    CHAN_7A, CHAN_7B, CHAN_7C, CHAN_7D, CHAN_8A, CHAN_8B, CHAN_8C, CHAN_8D,
    CHAN_9A, CHAN_9B, CHAN_9C, CHAN_9D, CHAN_10A, CHAN_10N, CHAN_10B, CHAN_10C,
    CHAN_10D, CHAN_11A, CHAN_11N, CHAN_11B, CHAN_11C, CHAN_11D, CHAN_12A, CHAN_12N,
    CHAN_12B, CHAN_12C, CHAN_12D, CHAN_13A, CHAN_13B, CHAN_13C, CHAN_13D, CHAN_13E,
    CHAN_13F ]

/-- The table `FREQ_TABLE_DEFAULT[41]`. -/
def FREQ_TABLE_DEFAULT : List Nat :=
  [ CHAN_5A, CHAN_5B, CHAN_5C, CHAN_5D,
    CHAN_6A, CHAN_6B, CHAN_6C, CHAN_6D,
    CHAN_7A, CHAN_7B, CHAN_7C, CHAN_7D,
    CHAN_8A, CHAN_8B, CHAN_8C, CHAN_8D,
    CHAN_9A, CHAN_9B, CHAN_9C, CHAN_9D,
    CHAN_10A, CHAN_10N, CHAN_10B, CHAN_10C, CHAN_10D,
    CHAN_11A, CHAN_11N, CHAN_11B, CHAN_11C, CHAN_11D,
    CHAN_12A, CHAN_12N, CHAN_12B, CHAN_12C, CHAN_12D,
    CHAN_13A, CHAN_13B, CHAN_13C, CHAN_13D, CHAN_13E, CHAN_13F ]

/-- The table `FREQ_TABLE_EMPTY[]`. -/
def FREQ_TABLE_EMPTY : List Nat := [CHAN_13F]
/-- The table `FREQ_TABLE_DE[]`. -/
def FREQ_TABLE_DE : List Nat := [CHAN_5C, CHAN_9B]
/-- The table `FREQ_TABLE_DE_BW[]`. -/
def FREQ_TABLE_DE_BW : List Nat := [CHAN_5C, CHAN_8D, CHAN_9D, CHAN_11B]
/-- The table `FREQ_TABLE_DE_BY[]`. -/
def FREQ_TABLE_DE_BY : List Nat :=
  [CHAN_5C, CHAN_12D, CHAN_11D, CHAN_9C, CHAN_10C, CHAN_11A, CHAN_11C, CHAN_12A, CHAN_6A]
/-- The table `FREQ_TABLE_DE_BB[]`. -/
def FREQ_TABLE_DE_BB : List Nat := [CHAN_5C, CHAN_7B, CHAN_7D]
/-- The table `FREQ_TABLE_DE_HB[]`. -/
def FREQ_TABLE_DE_HB : List Nat := [CHAN_5C, CHAN_7B, CHAN_12A]
/-- The table `FREQ_TABLE_DE_HH[]`. -/
def FREQ_TABLE_DE_HH : List Nat := [CHAN_5C, CHAN_7A]
/-- The table `FREQ_TABLE_DE_HE[]`. -/
def FREQ_TABLE_DE_HE : List Nat := [CHAN_5C, CHAN_7B, CHAN_11C]
/-- The table `FREQ_TABLE_DE_MV[]`. -/
def FREQ_TABLE_DE_MV : List Nat := [CHAN_5C, CHAN_12B]
/-- The table `FREQ_TABLE_DE_NI[]`. -/
def FREQ_TABLE_DE_NI : List Nat := [CHAN_5C, CHAN_6A, CHAN_6D, CHAN_11B, CHAN_12A]
/-- The table `FREQ_TABLE_DE_NW[]`. -/
def FREQ_TABLE_DE_NW : List Nat := [CHAN_5C, CHAN_11D]
/-- The table `FREQ_TABLE_DE_RP[3]`. -/
def FREQ_TABLE_DE_RP : List Nat := [CHAN_5C, CHAN_9B, CHAN_11A]
/-- The table `FREQ_TABLE_DE_SL[]`. -/
def FREQ_TABLE_DE_SL : List Nat := [CHAN_5C, CHAN_9A]
/-- The table `FREQ_TABLE_DE_SN[]`. -/
def FREQ_TABLE_DE_SN : List Nat := [CHAN_5C, CHAN_6C, CHAN_8D, CHAN_9A, CHAN_12A]
/-- The table `FREQ_TABLE_DE_ST[]`. -/
def FREQ_TABLE_DE_ST : List Nat := [CHAN_5C, CHAN_11C, CHAN_12C]
/-- The table `FREQ_TABLE_DE_SH[]`. -/
def FREQ_TABLE_DE_SH : List Nat := [CHAN_5C, CHAN_9C]
/-- The table `FREQ_TABLE_DE_TH[]`. -/
def FREQ_TABLE_DE_TH : List Nat := [CHAN_5C, CHAN_7B, CHAN_9C, CHAN_12B]
/-- The table `FREQ_TABLE_IT[]`. -/
def FREQ_TABLE_IT : List Nat := [CHAN_12A, CHAN_12B, CHAN_12C, CHAN_12D]
/-- The table `FREQ_TABLE_IT_32[]`. -/
def FREQ_TABLE_IT_32 : List Nat := [CHAN_10B, CHAN_10C, CHAN_10D]
/-- The table `FREQ_TABLE_IT_34[]`. -/
def FREQ_TABLE_IT_34 : List Nat :=
  [CHAN_10B, CHAN_10C, CHAN_10D, CHAN_12A, CHAN_12B, CHAN_12C]
/-- The table `FREQ_TABLE_CH[]`. -/
def FREQ_TABLE_CH : List Nat :=
  [CHAN_12A, CHAN_12C, CHAN_12D, CHAN_7D, CHAN_7A, CHAN_9D, CHAN_8B]
/-- The table `FREQ_TABLE_UK[]`. -/
def FREQ_TABLE_UK : List Nat := [CHAN_11A, CHAN_11D, CHAN_12B]

/-- Every predefined frequency table of the header, the default table first. -/
def FREQ_TABLES : List (List Nat) :=
  [ FREQ_TABLE_DEFAULT, FREQ_TABLE_EMPTY, FREQ_TABLE_DE, FREQ_TABLE_DE_BW, FREQ_TABLE_DE_BY,
    FREQ_TABLE_DE_BB, FREQ_TABLE_DE_HB, FREQ_TABLE_DE_HH, FREQ_TABLE_DE_HE, FREQ_TABLE_DE_MV,
    FREQ_TABLE_DE_NI, FREQ_TABLE_DE_NW, FREQ_TABLE_DE_RP, FREQ_TABLE_DE_SL, FREQ_TABLE_DE_SN,
    FREQ_TABLE_DE_ST, FREQ_TABLE_DE_SH, FREQ_TABLE_DE_TH, FREQ_TABLE_IT, FREQ_TABLE_IT_32,
    FREQ_TABLE_IT_34, FREQ_TABLE_CH, FREQ_TABLE_UK ]

/-- The steps between adjacent entries of a table: entry `i + 1` minus entry
`i`, as integers. -/
def channelSteps : List Nat → List Int
  | a :: b :: rest => ((b : Int) - (a : Int)) :: channelSteps (b :: rest)
  | _ => []

/-- Lower end of the tunable range, kHz: the header's "168.16 ... MHz". -/
def TUNE_FREQ_MIN : Nat := 168160
/-- Upper end of the tunable range, kHz: the header's "... 239.20 MHz". -/
def TUNE_FREQ_MAX : Nat := 239200
/-- The distance the header's comment names: "Frequency distance = 1712Hz". -/
def FREQUENCY_DISTANCE : Nat := 1712

/-! ## Delay constants -/

/-- Delay of `durationsDab_t`, microseconds. -/
def DURATION_STOP_START_SERVICE : Nat := 10000
/-- Delay of `durationsDab_t`, microseconds. -/
def DURATION_TUNE : Nat := 10000
/-- Delay of `durationsDab_t`, microseconds. -/
def DURATION_15000_MIKROS : Nat := 15000
/-- Delay of `durationsDab_t`, microseconds. -/
def DURATION_10000_MIKRO : Nat := 10000

/-- The enumerators of `enum durationsDevice_t` in declaration order. -/
def durationsDevice_t : List Nat :=
  [ DURATION_RESET, DURATION_POWER_UP, DURATION_REPLY, DURATION_LOAD_INIT, DURATION_BOOT,
    DURATION_PROPERTY ]

/-- The enumerators of `enum durationsDab_t` in declaration order. -/
def durationsDab_t : List Nat :=
  [ DURATION_STOP_START_SERVICE, DURATION_TUNE, DURATION_15000_MIKROS, DURATION_10000_MIKRO ]

/-- Largest duration `delayMicroseconds` accepts, after the header's comment
"max delayMicroseconds(16383) = delayMicroseconds(0x3FFF)". -/
def MAX_DELAY_MICROSECONDS : Nat := 0x3FFF

/-- Timing the comment of `DURATION_RESET` documents: "5ms tRSTB_HI see timing". -/
def T_RSTB_HI : Nat := 5000
/-- Flowchart value the comment of `DURATION_RESET` documents: "3ms see flowchart". -/
def FLOWCHART_RESET : Nat := 3000
/-- Timing the comment of `DURATION_POWER_UP` documents: "3ms tPOWER_UP see timing". -/
def T_POWER_UP : Nat := 3000
/-- Flowchart value the comment of `DURATION_LOAD_INIT` documents: "4ms see flowchart". -/
def FLOWCHART_LOAD_INIT : Nat := 4000
/-- Tested value the comment of `DURATION_REPLY` documents: "tested 2500us". -/
def TESTED_REPLY : Nat := 2500
/-- Poll interval the comment of `DURATION_REPLY` documents: "CTS polls @ 1 ms". -/
def CTS_POLL_INTERVAL : Nat := 1000

/-! ## Documented record sizes -/

/-- Size the header documents for `ensembleHeader_t`: "9 = 7+2 Byte". -/
def ENSEMBLE_HEADER_BYTES : Nat := 9
/-- Size the header documents for `serviceList_t`: "5+2 = 7 Byte". -/
def SERVICE_LIST_BYTES : Nat := 7
/-- Size the header documents for `componentList_t`: "4 Byte". -/
def COMPONENT_LIST_BYTES : Nat := 4
/-- Budget the header documents at `constantsDab_t`: "To use about 500 Bytes of
RAM". -/
def RAM_BUDGET_BYTES : Nat := 500

/-- Bytes of one service record with its owned component sequence, by the
documented record sizes. -/
def serviceBytes (s : serviceList_t) : Nat :=
  SERVICE_LIST_BYTES +
    match s.componentList with
    | none => 0
    | some components => components.length * COMPONENT_LIST_BYTES

/-- Bytes of an ensemble hierarchy, by the documented record sizes: the header,
and every service record with its component records. -/
def hierarchyBytes (h : ensembleHeader_t) : Nat :=
  ENSEMBLE_HEADER_BYTES +
    match h.serviceList with
    | none => 0
    | some services => (services.map serviceBytes).sum

/-- Bytes of a hierarchy filled to the ceilings: `MAX_NUMBER_SERVICES` services
of `MAX_NUMBER_COMPONENTS` components each. -/
def ceilingBytes : Nat :=
  ENSEMBLE_HEADER_BYTES +
    MAX_NUMBER_SERVICES * (SERVICE_LIST_BYTES + MAX_NUMBER_COMPONENTS * COMPONENT_LIST_BYTES)

/-- A device that reports the wire-format maximum: 32 services of 15 components
each. -/
def wireMaxDevice : DabDevice :=
  { listSize := 2694
    version := 1
    numServices := WIRE_MAX_SERVICES
    service := fun i =>
      { serviceId := 0xD000 + i
        dataFlag := 0
        numComponents := WIRE_MAX_COMPONENTS
        component := fun j =>
          { componentId := j, secondaryFlag := 0, conditionalAccessFlag := 0,
            serviceType := 0, validFlag := 1 } } }

/-! ## Signal-quality record -/

/-- The fields of `struct rsqInformation_t` with their declared widths in bits,
in declaration order. -/
def rsqInformation_t_fields : List (String × Nat) :=
  [ ("hardMuteInterrupt", 1), ("ficErrorInterrupt", 1), ("acqInterrupt", 1),
    ("rssiHighInterrupt", 1), ("rssiLowInterrupt", 1),
    ("hardmute", 1), ("ficError", 1), ("acq", 1), ("valid", 1),
    ("rssi", 8), ("snr", 8), ("ficQuality", 8), ("cnr", 8),
    ("fibErrorCount", 16), ("frequency", 32), ("index", 8), ("fftOffset", 8),
    ("varactorCap", 16), ("cuLevel", 16), ("fastDect", 8) ]

/-- Size the header documents for `rsqInformation_t`: "18 Bytes". -/
def RSQ_INFORMATION_BYTES : Nat := 18

/-- Sum of the declared widths of a record, bits. -/
def sumWidths (fields : List (String × Nat)) : Nat :=
  (fields.map Prod.snd).sum

/-! ## Size of the service-list reply -/

theorem replyReads_append (a b : List BusEvent) :
    replyReads (a ++ b) = replyReads a + replyReads b := by
  induction a with
  | nil => simp [replyReads]
  | cons e t ih =>
    cases e <;> simp [replyReads, ih]
    omega

theorem commandWrites_append (a b : List BusEvent) :
    commandWrites (a ++ b) = commandWrites a + commandWrites b := by
  induction a with
  | nil => simp [commandWrites]
  | cons e t ih =>
    cases e <;> simp [commandWrites, ih]
    omega

theorem busyPoll_busy (dev : Nat → StatusBytes)
    (hbusy : ∀ k, (readStatusRegister (dev k)).cts = 0) :
    ∀ (left k : Nat) (tr : List BusEvent),
      (busyPoll dev left k tr).1 = .error .busyTimeout ∧
      replyReads (busyPoll dev left k tr).2 = replyReads tr + left ∧
      commandWrites (busyPoll dev left k tr).2 = commandWrites tr := by
  intro left
  induction left with
  | zero => intro k tr; simp [busyPoll]
  | succ n ih =>
    intro k tr
    have h0 := hbusy k
    have hstep : busyPoll dev (n + 1) k tr
        = busyPoll dev n (k + 1) (tr ++ [.delay DURATION_REPLY, .readReply 3]) := by
      simp [busyPoll, h0]
    rw [hstep]
    obtain ⟨h1, h2, h3⟩ := ih (k + 1) (tr ++ [.delay DURATION_REPLY, .readReply 3])
    refine ⟨h1, ?_, ?_⟩
    · rw [h2, replyReads_append]; simp [replyReads]; omega
    · rw [h3, commandWrites_append]; simp [commandWrites]

theorem busyPoll_commandError (dev : Nat → StatusBytes) :
    ∀ (n left k : Nat) (tr : List BusEvent), n < left →
      (∀ j, j < n → (readStatusRegister (dev (k + j))).cts = 0) →
      (readStatusRegister (dev (k + n))).cts = 1 →
      (readStatusRegister (dev (k + n))).cmdErr = 1 →
      (busyPoll dev left k tr).1
          = .error (.commandError (readStatusRegister (dev (k + n))).cmdErrCode) ∧
      replyReads (busyPoll dev left k tr).2 = replyReads tr + (n + 1) ∧
      commandWrites (busyPoll dev left k tr).2 = commandWrites tr := by
  intro n
  induction n with
  | zero =>
    intro left k tr hlt _ hcts herr
    obtain ⟨m, rfl⟩ : ∃ m, left = m + 1 := ⟨left - 1, by omega⟩
    simp only [Nat.add_zero] at hcts herr ⊢
    simp [busyPoll, hcts, herr, replyReads_append, commandWrites_append, replyReads,
      commandWrites]
  | succ n ih =>
    intro left k tr hlt hbusy hcts herr
    obtain ⟨m, rfl⟩ : ∃ m, left = m + 1 := ⟨left - 1, by omega⟩
    have h0 : (readStatusRegister (dev k)).cts = 0 := by
      have := hbusy 0 (by omega)
      simpa using this
    have hstep : busyPoll dev (m + 1) k tr
        = busyPoll dev m (k + 1) (tr ++ [.delay DURATION_REPLY, .readReply 3]) := by
      simp [busyPoll, h0]
    have hidx : k + 1 + n = k + (n + 1) := by omega
    rw [hstep]
    obtain ⟨h1, h2, h3⟩ := ih m (k + 1) (tr ++ [.delay DURATION_REPLY, .readReply 3])
      (by omega)
      (fun j hj => by
        have := hbusy (j + 1) (by omega)
        have e : k + 1 + j = k + (j + 1) := by omega
        rw [e]; exact this)
      (by rw [hidx]; exact hcts) (by rw [hidx]; exact herr)
    rw [hidx] at h1
    refine ⟨h1, ?_, ?_⟩
    · rw [h2, replyReads_append]; simp [replyReads]; omega
    · rw [h3, commandWrites_append]; simp [commandWrites]

/-! ## Claims on the protocol engine -/

/-- C1: when the device never sets clear-to-send in any status reply, a command
exchange performs exactly MAX_RETRY = 10 reply reads, fails with Busy/Timeout
and its whole trace holds no further poll (one command write, ten reads). -/
theorem exchange_busy_timeout (opcode : Nat) (args : List Nat) (dev : Nat → StatusBytes)
    (hbusy : ∀ k, (readStatusRegister (dev k)).cts = 0) :
    (exchange opcode args dev).1 = .error .busyTimeout ∧
    replyReads (exchange opcode args dev).2 = MAX_RETRY ∧
    MAX_RETRY = 10 ∧
    commandWrites (exchange opcode args dev).2 = 1 := by
  obtain ⟨h1, h2, h3⟩ := busyPoll_busy dev hbusy MAX_RETRY 0 [.writeCommand opcode args]
  refine ⟨h1, ?_, rfl, ?_⟩
  · simp only [exchange, readReply, writeCommandArgument]; rw [h2]; simp [replyReads]
  · simp only [exchange, readReply, writeCommandArgument]; rw [h3]; simp [commandWrites]

/-- Witness of C1: a device that answers every reply-read with three zero
bytes. -/
theorem exchange_busy_timeout_witness :
    (exchange READ_REPLY [] (fun _ => ⟨0, 0, 0⟩)).1 = .error .busyTimeout ∧
    replyReads (exchange READ_REPLY [] (fun _ => ⟨0, 0, 0⟩)).2 = MAX_RETRY ∧
    MAX_RETRY = 10 ∧
    commandWrites (exchange READ_REPLY [] (fun _ => ⟨0, 0, 0⟩)).2 = 1 :=
  exchange_busy_timeout READ_REPLY [] (fun _ => ⟨0, 0, 0⟩) (fun _ => rfl)

/-- C2: when the first status reply with clear-to-send set (after n < MAX_RETRY
busy replies) also has cmdErr = 1, the exchange reports CommandError with
exactly the 8-bit cmdErrCode of that status register, which is the third reply
byte whatever its value 0..255; the command is written once and no reply is
read after that one. -/
theorem exchange_command_error (opcode : Nat) (args : List Nat) (dev : Nat → StatusBytes)
    (n : Nat) (hn : n < MAX_RETRY)
    (hbusy : ∀ j, j < n → (readStatusRegister (dev j)).cts = 0)
    (hcts : (readStatusRegister (dev n)).cts = 1)
    (herr : (readStatusRegister (dev n)).cmdErr = 1) :
    (exchange opcode args dev).1
        = .error (.commandError (readStatusRegister (dev n)).cmdErrCode) ∧
    ((dev n).b2 < 256 → (readStatusRegister (dev n)).cmdErrCode = (dev n).b2) ∧
    commandWrites (exchange opcode args dev).2 = 1 ∧
    replyReads (exchange opcode args dev).2 = n + 1 := by
  obtain ⟨h1, h2, h3⟩ := busyPoll_commandError dev n MAX_RETRY 0
    [.writeCommand opcode args] hn (by simpa using hbusy) (by simpa using hcts)
    (by simpa using herr)
  simp only [Nat.zero_add] at h1
  refine ⟨h1, ?_, ?_, ?_⟩
  · intro hb; simp [readStatusRegister, Nat.mod_eq_of_lt hb]
  · simp only [exchange, readReply, writeCommandArgument]; rw [h3]; simp [commandWrites]
  · simp only [exchange, readReply, writeCommandArgument]; rw [h2]; simp [replyReads]

/-- Witness of C2: two busy replies, then clear-to-send with cmdErr and the
error code 0x10. -/
theorem exchange_command_error_witness :
    (exchange POWER_UP [] (fun k => if k < 2 then ⟨0, 0, 0⟩ else ⟨3, 0, 0x10⟩)).1
        = .error (.commandError 0x10) ∧
    replyReads (exchange POWER_UP [] (fun k => if k < 2 then ⟨0, 0, 0⟩ else ⟨3, 0, 0x10⟩)).2
        = 3 := by
  have h := exchange_command_error POWER_UP []
    (fun k => if k < 2 then ⟨0, 0, 0⟩ else ⟨3, 0, 0x10⟩) 2 (by decide)
    (fun j hj => by simp [hj, readStatusRegister]) (by decide) (by decide)
  exact ⟨h.1, h.2.2.2⟩

/-! ## Ensemble decoder -/

theorem releaseComponents_mem (l : List serviceList_t) :
    ∀ (i : Nat) (r : Release), r ∈ releaseComponents l i →
      ∃ j, r = .componentSequence j ∧ i ≤ j := by
  induction l with
  | nil => intro i r hr; simp [releaseComponents] at hr
  | cons s rest ih =>
    intro i r hr
    unfold releaseComponents at hr
    split at hr
    · rcases List.mem_cons.mp hr with h | h
      · exact ⟨i, h, le_refl i⟩
      · obtain ⟨j, hj, hle⟩ := ih (i + 1) r h
        exact ⟨j, hj, by omega⟩
    · obtain ⟨j, hj, hle⟩ := ih (i + 1) r hr
      exact ⟨j, hj, by omega⟩

theorem releaseComponents_nodup (l : List serviceList_t) :
    ∀ i : Nat, (releaseComponents l i).Nodup := by
  induction l with
  | nil => intro i; simp [releaseComponents]
  | cons s rest ih =>
    intro i
    unfold releaseComponents
    split
    · refine List.nodup_cons.mpr ⟨?_, ih (i + 1)⟩
      intro hmem
      obtain ⟨j, hj, hle⟩ := releaseComponents_mem rest (i + 1) _ hmem
      injection hj with hij
      omega
    · exact ih (i + 1)

/-- C6: for every ensemble header, freeMemoryFromEnsembleList leaves a cleared
header (no service list, service count 0); a second call on that cleared header
leaves it unchanged and releases nothing; and the first call releases no
component sequence or service sequence twice. -/
theorem freeMemoryFromEnsembleList_idempotent (h : ensembleHeader_t) :
    (freeMemoryFromEnsembleList h).1.serviceList = none ∧
    (freeMemoryFromEnsembleList h).1.numServices = 0 ∧
    freeMemoryFromEnsembleList (freeMemoryFromEnsembleList h).1
      = ((freeMemoryFromEnsembleList h).1, []) ∧
    (freeMemoryFromEnsembleList h).2.Nodup := by
  cases hs : h.serviceList with
  | none => simp [freeMemoryFromEnsembleList, hs]
  | some services =>
    refine ⟨by simp [freeMemoryFromEnsembleList, hs], by simp [freeMemoryFromEnsembleList, hs],
      by simp [freeMemoryFromEnsembleList, hs], ?_⟩
    simp only [freeMemoryFromEnsembleList, hs]
    refine List.nodup_append.mpr ⟨releaseComponents_nodup services 0, by simp, ?_⟩
    intro r hr hr2
    obtain ⟨j, hj, _⟩ := releaseComponents_mem services 0 r hr
    rw [hj] at hr2
    simp at hr2

/-! ## Navigator -/

theorem nextService_iterate (h : ensembleHeader_t) (hlt : h.numServices < 256)
    (hi : h.actualService < h.numServices) :
    ∀ k : Nat, (nextService^[k] h).numServices = h.numServices ∧
      (nextService^[k] h).listSize = h.listSize ∧
      (nextService^[k] h).actualService = (h.actualService + k) % h.numServices := by
  intro k
  induction k with
  | zero => simp [Nat.mod_eq_of_lt hi]
  | succ k ih =>
    obtain ⟨h1, h2, h3⟩ := ih
    rw [Function.iterate_succ_apply']
    have hpos : 0 < h.numServices := by omega
    have hb : (h.actualService + (k + 1)) % h.numServices < 2 ^ 8 :=
      lt_trans (Nat.mod_lt _ hpos) (by simpa using hlt)
    refine ⟨by simp [nextService, h1], by simp [nextService, h2], ?_⟩
    simp only [nextService, h1, h3, Nat.mod_add_mod, storeField]
    exact Nat.mod_eq_of_lt hb

theorem previous_after_next_cursor (n i : Nat) (hn : n < 256) (hi : i < n) :
    storeField 8 ((storeField 8 ((i + 1) % n) + n - 1) % n) = i := by
  simp only [storeField]
  have hi8 : i < 2 ^ 8 := lt_trans hi (by simpa using hn)
  rcases Nat.lt_or_ge (i + 1) n with hlt | hge
  · have h1 : (i + 1) % n = i + 1 := Nat.mod_eq_of_lt hlt
    have h2 : (i + 1) % 2 ^ 8 = i + 1 := Nat.mod_eq_of_lt (by omega)
    have h3 : i + 1 + n - 1 = i + n := by omega
    rw [h1, h2, h3, Nat.add_mod_right, Nat.mod_eq_of_lt hi, Nat.mod_eq_of_lt hi8]
  · have hn1 : i + 1 = n := by omega
    subst hn1
    have h3 : 0 + (i + 1) - 1 = i := by omega
    rw [Nat.mod_self, Nat.zero_mod, h3, Nat.mod_eq_of_lt hi, Nat.mod_eq_of_lt hi8]

/-- C4: on a decoded ensemble with n >= 1 services (n fits the 8-bit count
field) and cursor actualService = i < n, nextService moves the cursor to
(i + 1) mod n and previousService to (i + n - 1) mod n; n successive
nextService calls return the cursor to i; previousService undoes nextService;
and with n = 3 and i = 0, previousService lands on 2 and three nextService
calls return to 0. -/
theorem nextService_previousService_wrap (h : ensembleHeader_t)
    (hpos : 1 ≤ h.numServices) (hlt : h.numServices < 256)
    (hi : h.actualService < h.numServices) :
    (nextService h).actualService = (h.actualService + 1) % h.numServices ∧
    (previousService h).actualService
        = (h.actualService + h.numServices - 1) % h.numServices ∧
    (nextService^[h.numServices] h).actualService = h.actualService ∧
    previousService (nextService h) = h ∧
    (h.numServices = 3 → h.actualService = 0 →
      (previousService h).actualService = 2 ∧ (nextService^[3] h).actualService = 0) := by
  have hn8 : h.numServices < 2 ^ 8 := by simpa using hlt
  have hnext : (nextService h).actualService = (h.actualService + 1) % h.numServices := by
    simp only [nextService, storeField]
    exact Nat.mod_eq_of_lt (lt_trans (Nat.mod_lt _ hpos) hn8)
  have hprev : (previousService h).actualService
      = (h.actualService + h.numServices - 1) % h.numServices := by
    simp only [previousService, storeField]
    exact Nat.mod_eq_of_lt (lt_trans (Nat.mod_lt _ hpos) hn8)
  have hiter : (nextService^[h.numServices] h).actualService = h.actualService := by
    rw [(nextService_iterate h hlt hi h.numServices).2.2, Nat.add_mod_right,
      Nat.mod_eq_of_lt hi]
  refine ⟨hnext, hprev, hiter, ?_, ?_⟩
  · obtain ⟨aS, aC, lS, ver, n, sl⟩ := h
    simp only [nextService, previousService]
    simp only at hlt hi
    rw [previous_after_next_cursor n aS hlt hi]
  · intro h3 h0
    refine ⟨?_, ?_⟩
    · rw [hprev, h3, h0]
    · rw [← h3, hiter, h0]

/-- Witness of C4: the decoded three-service ensemble with the cursor on the
first service. -/
theorem nextService_previousService_wrap_witness :
    (previousService threeServices).actualService = 2 ∧
    (nextService^[3] threeServices).actualService = 0 :=
  (nextService_previousService_wrap threeServices (by decide) (by decide) (by decide)).2.2.2.2
    rfl rfl

/-! ## Firmware loader -/

theorem flashLoadAddresses_append (a b : List BusEvent) :
    flashLoadAddresses (a ++ b) = flashLoadAddresses a ++ flashLoadAddresses b := by
  induction a with
  | nil => simp [flashLoadAddresses]
  | cons e t ih =>
    cases e with
    | writeCommand opcode args =>
      by_cases hop : opcode = FLASH_LOAD <;> simp [flashLoadAddresses, hop, ih]
    | resetPulse => simp [flashLoadAddresses, ih]
    | delay us => simp [flashLoadAddresses, ih]
    | readReply len => simp [flashLoadAddresses, ih]

theorem busyPoll_result (dev : Nat → StatusBytes) :
    ∀ (left k : Nat) (tr : List BusEvent),
      (busyPoll dev left k tr).1 = (busyPoll dev left k []).1 ∧
      flashLoadAddresses (busyPoll dev left k tr).2 = flashLoadAddresses tr := by
  intro left
  induction left with
  | zero => intro k tr; simp [busyPoll]
  | succ n ih =>
    intro k tr
    by_cases hcts : (readStatusRegister (dev k)).cts = 1
    · by_cases herr : (readStatusRegister (dev k)).cmdErr = 1 <;>
        simp [busyPoll, hcts, herr, flashLoadAddresses_append, flashLoadAddresses]
    · have e1 : busyPoll dev (n + 1) k tr
          = busyPoll dev n (k + 1) (tr ++ [.delay DURATION_REPLY, .readReply 3]) := by
        simp [busyPoll, hcts]
      have e2 : busyPoll dev (n + 1) k []
          = busyPoll dev n (k + 1) [.delay DURATION_REPLY, .readReply 3] := by
        simp [busyPoll, hcts]
      rw [e1, e2]
      refine ⟨?_, ?_⟩
      · rw [(ih (k + 1) _).1, (ih (k + 1) [.delay DURATION_REPLY, .readReply 3]).1]
      · rw [(ih (k + 1) _).2, flashLoadAddresses_append]
        simp [flashLoadAddresses]

theorem loaderStep_completes (dev : Nat → Nat → StatusBytes)
    (hready : ∀ j, completes (dev j) = true)
    (tr : List BusEvent) (opcode : Nat) (args : List Nat) (settle : List BusEvent) :
    ∃ st tr1, loaderStep dev tr opcode args settle = (.ok st, tr1) ∧
      flashLoadAddresses tr1
        = flashLoadAddresses (tr ++ [.writeCommand opcode args] ++ settle) := by
  obtain ⟨st, hst⟩ : ∃ st, (readReply (dev (commandWrites tr)) []).1 = .ok st := by
    have hc := hready (commandWrites tr)
    unfold completes at hc
    split at hc
    · exact ⟨_, by assumption⟩
    · exact absurd hc (by decide)
  obtain ⟨h1, h2⟩ := busyPoll_result (dev (commandWrites tr)) MAX_RETRY 0
    (tr ++ [.writeCommand opcode args] ++ settle)
  refine ⟨st, (loaderStep dev tr opcode args settle).2, ?_, h2⟩
  have : (loaderStep dev tr opcode args settle).1 = .ok st := by
    simp only [loaderStep, readReply, writeCommandArgument]
    rw [h1]
    exact hst
  rw [← this]

theorem flashLoadPages_addresses (dev : Nat → Nat → StatusBytes)
    (hready : ∀ j, completes (dev j) = true) :
    ∀ (fuel address remaining : Nat) (tr : List BusEvent), remaining ≤ fuel →
      (flashLoadPages dev fuel address remaining tr).1 = .ok () ∧
      flashLoadAddresses (flashLoadPages dev fuel address remaining tr).2
        = flashLoadAddresses tr ++
          (List.range ((remaining + FLASH_PAGE_SIZE - 1) / FLASH_PAGE_SIZE)).map
            (fun k => (address + k * FLASH_PAGE_SIZE) % 2 ^ 32) := by
  intro fuel
  induction fuel with
  | zero =>
    intro address remaining tr hle
    have h0 : remaining = 0 := by omega
    subst h0
    simp [flashLoadPages, FLASH_PAGE_SIZE]
  | succ fuel ih =>
    intro address remaining tr hle
    by_cases h0 : remaining = 0
    · subst h0
      simp [flashLoadPages, FLASH_PAGE_SIZE]
    · obtain ⟨st, tr1, hstep, haddr⟩ :=
        loaderStep_completes dev hready tr FLASH_LOAD [storeField 32 address, storeField 8 0] []
      have hunf : flashLoadPages dev (fuel + 1) address remaining tr
          = flashLoadPages dev fuel (address + FLASH_PAGE_SIZE)
              (remaining - FLASH_PAGE_SIZE) tr1 := by
        simp only [flashLoadPages, h0, if_false, flashLoad, hstep]
      obtain ⟨r1, r2⟩ := ih (address + FLASH_PAGE_SIZE) (remaining - FLASH_PAGE_SIZE) tr1
        (by simp only [FLASH_PAGE_SIZE]; omega)
      rw [hunf]
      refine ⟨r1, ?_⟩
      rw [r2, haddr]
      have hpages : (remaining + FLASH_PAGE_SIZE - 1) / FLASH_PAGE_SIZE
          = (remaining - FLASH_PAGE_SIZE + FLASH_PAGE_SIZE - 1) / FLASH_PAGE_SIZE + 1 := by
        simp only [FLASH_PAGE_SIZE]; omega
      rw [hpages, List.range_succ_eq_map]
      simp only [flashLoadAddresses_append, flashLoadAddresses, List.append_nil, if_true,
        List.headD_cons, List.map_cons, List.map_map, List.append_assoc, List.singleton_append,
        Nat.zero_mul, Nat.add_zero, storeField]
      congr 2
      apply List.map_congr_left
      intro k _
      simp only [Function.comp, Nat.succ_eq_add_one]
      congr 1
      ring

/-- C5: on a device that completes every exchange, loadFirmware with page size
p = 0x100 issues exactly ceil(s / p) flash-load commands for every start
address a and image size s, the k-th carrying the 32-bit address a + k*p
(exactly a + k*p when the image lies in the 32-bit address space); for
s = 3*p + 37 these are the 4 commands with addresses a, a+p, a+2p, a+3p. -/
theorem loadFirmware_flash_load_pages (dev : Nat → Nat → StatusBytes)
    (powerUpArguments : List Nat) (a s : Nat) (hready : ∀ j, completes (dev j) = true) :
    FLASH_PAGE_SIZE = 0x100 ∧
    (flashLoadAddresses (loadFirmware dev powerUpArguments a s).2).length
        = (s + FLASH_PAGE_SIZE - 1) / FLASH_PAGE_SIZE ∧
    flashLoadAddresses (loadFirmware dev powerUpArguments a s).2
        = (List.range ((s + FLASH_PAGE_SIZE - 1) / FLASH_PAGE_SIZE)).map
            (fun k => (a + k * FLASH_PAGE_SIZE) % 2 ^ 32) ∧
    (a + s ≤ 2 ^ 32 →
      flashLoadAddresses (loadFirmware dev powerUpArguments a s).2
        = (List.range ((s + FLASH_PAGE_SIZE - 1) / FLASH_PAGE_SIZE)).map
            (fun k => a + k * FLASH_PAGE_SIZE)) ∧
    (s = 3 * FLASH_PAGE_SIZE + 37 → a + s ≤ 2 ^ 32 →
      flashLoadAddresses (loadFirmware dev powerUpArguments a s).2
        = [a, a + FLASH_PAGE_SIZE, a + 2 * FLASH_PAGE_SIZE, a + 3 * FLASH_PAGE_SIZE]) := by
  have hmain : flashLoadAddresses (loadFirmware dev powerUpArguments a s).2
      = (List.range ((s + FLASH_PAGE_SIZE - 1) / FLASH_PAGE_SIZE)).map
          (fun k => (a + k * FLASH_PAGE_SIZE) % 2 ^ 32) := by
    obtain ⟨st1, tr1, hs1, ha1⟩ := loaderStep_completes dev hready
      [.resetPulse, .delay DURATION_RESET] POWER_UP powerUpArguments [.delay DURATION_POWER_UP]
    obtain ⟨st2, tr2, hs2, ha2⟩ := loaderStep_completes dev hready
      tr1 LOAD_INIT [] [.delay DURATION_LOAD_INIT]
    obtain ⟨hp1, hp2⟩ := flashLoadPages_addresses dev hready s a s tr2 (le_refl s)
    obtain ⟨st4, tr4, hs4, ha4⟩ := loaderStep_completes dev hready
      (flashLoadPages dev s a s tr2).2 BOOT [] []
    have hpair : flashLoadPages dev s a s tr2 = (.ok (), (flashLoadPages dev s a s tr2).2) := by
      rw [← hp1]
    have hload : loadFirmware dev powerUpArguments a s = (.ok (), tr4) := by
      simp only [loadFirmware, hs1, hs2]
      rw [hpair]
      simp only [hs4]
    rw [hload]
    simp only
    rw [ha4]
    simp only [flashLoadAddresses_append, hp2, ha2, ha1]
    simp [flashLoadAddresses, POWER_UP, LOAD_INIT, BOOT, FLASH_LOAD]
  have hexact : a + s ≤ 2 ^ 32 →
      flashLoadAddresses (loadFirmware dev powerUpArguments a s).2
        = (List.range ((s + FLASH_PAGE_SIZE - 1) / FLASH_PAGE_SIZE)).map
            (fun k => a + k * FLASH_PAGE_SIZE) := by
    intro hfit
    rw [hmain]
    apply List.map_congr_left
    intro k hk
    have hk2 : k < (s + FLASH_PAGE_SIZE - 1) / FLASH_PAGE_SIZE := List.mem_range.mp hk
    apply Nat.mod_eq_of_lt
    simp only [FLASH_PAGE_SIZE] at hk2 ⊢
    omega
  refine ⟨rfl, ?_, hmain, hexact, ?_⟩
  · rw [hmain]; simp
  · intro hs hfit
    rw [hexact hfit, hs]
    simp [FLASH_PAGE_SIZE, List.range_succ]

/-- Witness of C5: a device that answers the first reply-read of every
exchange with clear-to-send and no error, image of 3*0x100 + 37 = 805 bytes at
flash address 0x2000. -/
theorem loadFirmware_flash_load_pages_witness :
    flashLoadAddresses (loadFirmware (fun _ _ => ⟨1, 0, 0⟩) [] 0x2000 805).2
      = [0x2000, 0x2100, 0x2200, 0x2300] :=
  (loadFirmware_flash_load_pages (fun _ _ => ⟨1, 0, 0⟩) [] 0x2000 805
    (fun _ => by simp [completes, readReply, busyPoll, MAX_RETRY, readStatusRegister])).2.2.2.2
    (by decide) (by decide)

/-! ## Bit-field records -/

/-- C7 (as the code has it): statusRegister_t consists of exactly one
clear-to-send bit, four one-bit interrupt flags (dacqInt, dsrvInt, stcInt,
eventInt), a 2-bit boot state, seven one-bit error flags (cmdErr, rfFeErr,
dspErr, repOfErr, cmdOfErr, arbErr, nonRecErr) and an 8-bit error code, and of
no other field: 14 fields, 12 of them one bit wide. -/
theorem statusRegister_t_shape :
    countFields .clearToSend 1 statusRegister_t_fields = 1 ∧
    countFields .interruptFlag 1 statusRegister_t_fields = 4 ∧
    countFields .bootState 2 statusRegister_t_fields = 1 ∧
    countFields .errorFlag 1 statusRegister_t_fields = 7 ∧
    countFields .errorCode 8 statusRegister_t_fields = 1 ∧
    statusRegister_t_fields.length = 1 + 4 + 1 + 7 + 1 ∧
    countWidth 1 statusRegister_t_fields = 12 := by
  decide

/-- C7 as stated fails: statusRegister_t has neither five interrupt flags nor
five error flags, and however the one-bit fields are grouped it has twelve of
them, one more than the eleven of the claim, so its fields are not the 13 the
claim lists. -/
theorem statusRegister_t_not_five_and_five :
    ¬ (countFields .clearToSend 1 statusRegister_t_fields = 1 ∧
       countFields .interruptFlag 1 statusRegister_t_fields = 5 ∧
       countFields .bootState 2 statusRegister_t_fields = 1 ∧
       countFields .errorFlag 1 statusRegister_t_fields = 5 ∧
       countFields .errorCode 8 statusRegister_t_fields = 1 ∧
       statusRegister_t_fields.length = 1 + 5 + 1 + 5 + 1) ∧
    countWidth 1 statusRegister_t_fields ≠ 1 + 5 + 5 ∧
    totalBits statusRegister_t_fields ≠ 1 + 5 + 2 + 5 + 8 := by
  decide

/-- C8: the bit-fields of statusRegister_t total 22 bits; packed in declaration
order with no field crossing a byte boundary they occupy exactly 3 bytes, cts
is bit 0 of the first byte, the 2-bit state takes bits 6 and 7 and so completes
the first byte, and cmdErrCode fills all 8 bits of the third byte. -/
theorem statusRegister_t_packing :
    totalBits statusRegister_t_fields = 22 ∧
    packedBytes statusRegister_t_fields = 3 ∧
    (∀ p, p ∈ packFields statusRegister_t_fields 0 → p.bit + p.width ≤ 8) ∧
    packFields statusRegister_t_fields 0 =
      [ ⟨"cts", 0, 0, 1⟩, ⟨"cmdErr", 0, 1, 1⟩, ⟨"dacqInt", 0, 2, 1⟩, ⟨"dsrvInt", 0, 3, 1⟩,
        ⟨"stcInt", 0, 4, 1⟩, ⟨"eventInt", 0, 5, 1⟩, ⟨"state", 0, 6, 2⟩,
        ⟨"rfFeErr", 1, 0, 1⟩, ⟨"dspErr", 1, 1, 1⟩, ⟨"repOfErr", 1, 2, 1⟩,
        ⟨"cmdOfErr", 1, 3, 1⟩, ⟨"arbErr", 1, 4, 1⟩, ⟨"nonRecErr", 1, 5, 1⟩,
        ⟨"cmdErrCode", 2, 0, 8⟩ ] := by
  refine ⟨by decide, by decide, by decide, by rfl⟩

/-- C9 (as the code has it): eventInformation_t carries exactly 12 one-bit
flags (7 interrupt flags and 5 availability flags) plus one 16-bit service-list
version counter and no other field, 28 bits in all, which fit in the documented
4 bytes. -/
theorem eventInformation_t_shape :
    countFields .interruptFlag 1 eventInformation_t_fields = 7 ∧
    countFields .availableFlag 1 eventInformation_t_fields = 5 ∧
    countWidth 1 eventInformation_t_fields = 12 ∧
    countFields .versionCounter 16 eventInformation_t_fields = 1 ∧
    eventInformation_t_fields.length = 12 + 1 ∧
    totalBits eventInformation_t_fields = 28 ∧
    totalBits eventInformation_t_fields ≤ 4 * 8 := by
  decide

/-- C9 as stated fails: eventInformation_t has 12 one-bit flags, not 11, and 28
bits in all, not 27. -/
theorem eventInformation_t_not_eleven_flags :
    ¬ (countWidth 1 eventInformation_t_fields = 11 ∧
       countFields .versionCounter 16 eventInformation_t_fields = 1 ∧
       eventInformation_t_fields.length = 11 + 1 ∧
       totalBits eventInformation_t_fields = 27) ∧
    countWidth 1 eventInformation_t_fields ≠ 11 ∧
    totalBits eventInformation_t_fields ≠ 27 := by
  decide

/-! ## Structural ceilings -/

/-- C10: MAX_NUMBER_SERVICES = 20, MAX_NUMBER_COMPONENTS = 4 and MAX_INDEX = 48
are each no larger than the wire-format maximum (32 services, 15 components, 48
indices), and for every reported count n the truncated value min(n, ceiling) is
stored unchanged in its count field (8-bit numServices, 4-bit numComponents,
8-bit index-list size); the decoder's stored component count is min(n, 4). -/
theorem ceilings_fit_count_fields :
    MAX_NUMBER_SERVICES = 20 ∧ MAX_NUMBER_COMPONENTS = 4 ∧ MAX_INDEX = 48 ∧
    MAX_NUMBER_SERVICES ≤ WIRE_MAX_SERVICES ∧
    MAX_NUMBER_COMPONENTS ≤ WIRE_MAX_COMPONENTS ∧
    MAX_INDEX ≤ WIRE_MAX_INDICES ∧
    (∀ n : Nat, storeField NUM_SERVICES_BITS (min n MAX_NUMBER_SERVICES)
        = min n MAX_NUMBER_SERVICES) ∧
    (∀ n : Nat, storeField NUM_COMPONENTS_BITS (min n MAX_NUMBER_COMPONENTS)
        = min n MAX_NUMBER_COMPONENTS) ∧
    (∀ n : Nat, storeField INDEX_LIST_SIZE_BITS (min n MAX_INDEX) = min n MAX_INDEX) ∧
    (∀ w : WireService, (decodeService w).numComponents
        = min w.numComponents MAX_NUMBER_COMPONENTS) := by
  refine ⟨rfl, rfl, rfl, by decide, by decide, by decide, ?_, ?_, ?_, ?_⟩
  · intro n
    exact Nat.mod_eq_of_lt (lt_of_le_of_lt (min_le_right _ _) (by decide))
  · intro n
    exact Nat.mod_eq_of_lt (lt_of_le_of_lt (min_le_right _ _) (by decide))
  · intro n
    exact Nat.mod_eq_of_lt (lt_of_le_of_lt (min_le_right _ _) (by decide))
  · intro w
    exact Nat.mod_eq_of_lt (lt_of_le_of_lt (min_le_right _ _) (by decide))

/-! ## Command codes -/

set_option maxRecDepth 8000 in
/-- C11: every command code of COMMANDS_DEVICE, COMMANDS_DAB and COMMANDS_FM
fits in one byte and no two commands of the three enums share a code; the
reply-read opcodes READ_REPLY = 0x00 and READ_OFFSET = 0x10 differ from each
other and each occurs exactly once among all 44 codes. -/
theorem command_codes_distinct_bytes :
    (∀ c, c ∈ commandCodes → c < 256) ∧
    commandCodes.Nodup ∧
    commandCodes.length = 16 + 22 + 6 ∧
    READ_REPLY = 0x00 ∧ READ_OFFSET = 0x10 ∧ READ_REPLY ≠ READ_OFFSET ∧
    commandCodes.count READ_REPLY = 1 ∧ commandCodes.count READ_OFFSET = 1 := by
  refine ⟨by decide, by decide, by decide, rfl, rfl, by decide, by decide, by decide⟩

/-! ## Frequency tables -/

/-- C12: every predefined frequency table (FREQ_TABLE_DEFAULT with 41 entries
and each of the 22 regional tables) is non-empty and has at most MAX_INDEX = 48
entries, so every index into such a table lies in 0..47 and the table length
fits the 8-bit size of an index list without exceeding 48. -/
theorem frequency_tables_within_MAX_INDEX :
    FREQ_TABLE_DEFAULT.length = 41 ∧
    FREQ_TABLES.length = 1 + 22 ∧
    MAX_INDEX = 48 ∧
    (∀ t, t ∈ FREQ_TABLES → 0 < t.length ∧ t.length ≤ MAX_INDEX) ∧
    (∀ t, t ∈ FREQ_TABLES → ∀ i, i < t.length → i ≤ 47) ∧
    (∀ t, t ∈ FREQ_TABLES →
      storeField INDEX_LIST_SIZE_BITS t.length = t.length ∧ t.length ≤ 48) := by
  have hlen : ∀ t, t ∈ FREQ_TABLES → 0 < t.length ∧ t.length ≤ MAX_INDEX := by decide
  refine ⟨rfl, rfl, rfl, hlen, ?_, ?_⟩
  · intro t ht i hi
    have h := (hlen t ht).2
    simp only [MAX_INDEX] at h
    omega
  · intro t ht
    have h := (hlen t ht).2
    simp only [MAX_INDEX] at h
    refine ⟨?_, h⟩
    simp only [storeField, INDEX_LIST_SIZE_BITS]
    omega

set_option maxRecDepth 8000 in
/-- C13 (as the code has it): adjacent entries of FREQ_TABLE_DEFAULT are not all
the same distance apart.  The step from entry i to entry i + 1 is 1712 kHz for
26 of the 40 adjacent pairs, namely for every i < 40 other than 3, 7, 11, 15,
19, 20, 21, 24, 25, 26, 29, 30, 31 and 37; at those 14 indices (the boundaries
of the channel blocks and the channels 10N, 11N, 12N and 13D) it is 1872, 1856,
160, 1552 or 1568 kHz. -/
theorem FREQ_TABLE_DEFAULT_steps :
    channelSteps FREQ_TABLE_DEFAULT =
      [ 1712, 1712, 1712, 1872, 1712, 1712, 1712, 1856, 1712, 1712,
        1712, 1872, 1712, 1712, 1712, 1856, 1712, 1712, 1712, 1872,
        160, 1552, 1712, 1712, 1856, 160, 1552, 1712, 1712, 1872,
        160, 1552, 1712, 1712, 1712, 1712, 1712, 1568, 1712, 1712 ] ∧
    (channelSteps FREQ_TABLE_DEFAULT).count (FREQUENCY_DISTANCE : Int) = 26 ∧
    (∀ i, i < 40 →
      (((FREQ_TABLE_DEFAULT.getD (i + 1) 0 : Nat) : Int) - (FREQ_TABLE_DEFAULT.getD i 0 : Nat)
          = 1712 ↔
        i ∉ [3, 7, 11, 15, 19, 20, 21, 24, 25, 26, 29, 30, 31, 37])) ∧
    (∀ s, s ∈ channelSteps FREQ_TABLE_DEFAULT →
      s ∈ [(1712 : Int), 1872, 1856, 160, 1552, 1568]) := by
  refine ⟨by decide, by decide, by decide, by decide⟩

/-- C13 as stated fails: FREQ_TABLE_DEFAULT[4] - FREQ_TABLE_DEFAULT[3], the
step from channel 5D to channel 6A, is 1872 and not 1712, so not every index
i < 40 has the step 1712. -/
theorem FREQ_TABLE_DEFAULT_step_not_always_1712 :
    ((FREQ_TABLE_DEFAULT.getD 4 0 : Nat) : Int) - (FREQ_TABLE_DEFAULT.getD 3 0 : Nat) = 1872 ∧
    ¬ (∀ i, i < 40 →
      ((FREQ_TABLE_DEFAULT.getD (i + 1) 0 : Nat) : Int) - (FREQ_TABLE_DEFAULT.getD i 0 : Nat)
        = 1712) := by
  refine ⟨by decide, ?_⟩
  intro h
  exact absurd (h 3 (by decide)) (by decide)

set_option maxRecDepth 8000 in
/-- C14: every channel frequency of VHF_Band_III, and every entry of every
predefined frequency table, lies between 168160 kHz and 239200 kHz inclusive
and is kept unchanged by an unsigned 32-bit field. -/
theorem channel_frequencies_in_tunable_range :
    TUNE_FREQ_MIN = 168160 ∧ TUNE_FREQ_MAX = 239200 ∧
    (∀ f, f ∈ VHF_Band_III →
      TUNE_FREQ_MIN ≤ f ∧ f ≤ TUNE_FREQ_MAX ∧ f < 2 ^ 32 ∧ storeField 32 f = f) ∧
    (∀ t, t ∈ FREQ_TABLES → ∀ f, f ∈ t → f ∈ VHF_Band_III) ∧
    (∀ t, t ∈ FREQ_TABLES → ∀ f, f ∈ t →
      TUNE_FREQ_MIN ≤ f ∧ f ≤ TUNE_FREQ_MAX ∧ f < 2 ^ 32 ∧ storeField 32 f = f) := by
  have hband : ∀ f, f ∈ VHF_Band_III →
      TUNE_FREQ_MIN ≤ f ∧ f ≤ TUNE_FREQ_MAX ∧ f < 2 ^ 32 ∧ storeField 32 f = f := by
    decide
  have hmem : ∀ t, t ∈ FREQ_TABLES → ∀ f, f ∈ t → f ∈ VHF_Band_III := by decide
  exact ⟨rfl, rfl, hband, hmem, fun t ht f hf => hband f (hmem t ht f hf)⟩

set_option maxRecDepth 8000 in
/-- C19: FREQ_TABLE_DEFAULT lists the 41 channels of VHF_Band_III, each exactly
once and in the order of the enum, in strictly increasing frequency: for all
indices i < j < 41 the entry at i is smaller than the entry at j, and no
frequency occurs twice. -/
theorem FREQ_TABLE_DEFAULT_strictly_increasing (i j : Nat) (hij : i < j) (hj : j < 41) :
    FREQ_TABLE_DEFAULT = VHF_Band_III ∧
    VHF_Band_III.length = 41 ∧
    FREQ_TABLE_DEFAULT.Nodup ∧
    (∀ f, f ∈ VHF_Band_III → FREQ_TABLE_DEFAULT.count f = 1) ∧
    FREQ_TABLE_DEFAULT.getD i 0 < FREQ_TABLE_DEFAULT.getD j 0 := by
  have hall : ∀ b, b < 41 → ∀ a, a < b →
      FREQ_TABLE_DEFAULT.getD a 0 < FREQ_TABLE_DEFAULT.getD b 0 := by decide
  exact ⟨rfl, rfl, by decide, by decide, hall j hj i hij⟩

/-- Witness of C19: channel 10A at index 20 lies below channel 10N at index
21. -/
theorem FREQ_TABLE_DEFAULT_strictly_increasing_witness :
    FREQ_TABLE_DEFAULT.getD 20 0 < FREQ_TABLE_DEFAULT.getD 21 0 :=
  (FREQ_TABLE_DEFAULT_strictly_increasing 20 21 (by decide) (by decide)).2.2.2.2

/-! ## Delay constants -/

/-- C15: every delay constant of durationsDevice_t and durationsDab_t is
positive and at most 16383 microseconds (0x3FFF), the largest duration the
delayMicroseconds primitive accepts. -/
theorem durations_within_delayMicroseconds_range :
    MAX_DELAY_MICROSECONDS = 16383 ∧
    durationsDevice_t.length = 6 ∧ durationsDab_t.length = 4 ∧
    (∀ d, d ∈ durationsDevice_t → 0 < d ∧ d ≤ MAX_DELAY_MICROSECONDS) ∧
    (∀ d, d ∈ durationsDab_t → 0 < d ∧ d ≤ MAX_DELAY_MICROSECONDS) := by
  refine ⟨rfl, rfl, rfl, by decide, by decide⟩

/-- C16: each start-up settle duration is no shorter than the hardware timing
its comment documents: DURATION_RESET >= 5000 us (tRSTB_HI, and the flowchart's
3000 us), DURATION_POWER_UP >= 3000 us (tPOWER_UP), DURATION_LOAD_INIT >=
4000 us (flowchart) and DURATION_REPLY >= 2500 us (tested value, and the CTS
poll interval of 1000 us). -/
theorem settle_durations_cover_documented_timing :
    T_RSTB_HI = 5000 ∧ T_RSTB_HI ≤ DURATION_RESET ∧ FLOWCHART_RESET ≤ DURATION_RESET ∧
    T_POWER_UP = 3000 ∧ T_POWER_UP ≤ DURATION_POWER_UP ∧
    FLOWCHART_LOAD_INIT = 4000 ∧ FLOWCHART_LOAD_INIT ≤ DURATION_LOAD_INIT ∧
    TESTED_REPLY = 2500 ∧ TESTED_REPLY ≤ DURATION_REPLY ∧
    CTS_POLL_INTERVAL ≤ DURATION_REPLY := by
  refine ⟨rfl, by decide, by decide, rfl, by decide, rfl, by decide, rfl, by decide,
    by decide⟩

/-! ## Memory of the ensemble hierarchy -/

theorem sum_map_le_length_mul {α : Type} (f : α → Nat) (c : Nat) :
    ∀ l : List α, (∀ x, x ∈ l → f x ≤ c) → (l.map f).sum ≤ l.length * c := by
  intro l
  induction l with
  | nil => intro _; simp
  | cons a t ih =>
    intro h
    have ha := h a (List.mem_cons_self a t)
    have ht := ih (fun x hx => h x (List.mem_cons_of_mem a hx))
    simp only [List.map_cons, List.sum_cons, List.length_cons]
    have e : (t.length + 1) * c = t.length * c + c := by ring
    omega

theorem serviceBytes_decodeService_le (w : WireService) :
    serviceBytes (decodeService w)
      ≤ SERVICE_LIST_BYTES + MAX_NUMBER_COMPONENTS * COMPONENT_LIST_BYTES := by
  have h : min w.numComponents MAX_NUMBER_COMPONENTS ≤ MAX_NUMBER_COMPONENTS :=
    min_le_right _ _
  simp only [serviceBytes, decodeService, List.length_map, List.length_range]
  exact Nat.add_le_add_left (Nat.mul_le_mul_right _ h) _

/-- C17: with the documented record sizes (ensemble header 9 bytes, service
record 7 bytes, component record 4 bytes) a hierarchy filled to the ceilings of
20 services with 4 components each occupies 9 + 20*(7 + 4*4) = 469 bytes, within
the documented budget of about 500 bytes; the hierarchy decoded from a device
that reports the wire maximum of 32 services with 15 components occupies that
much, and no decoded hierarchy occupies more. -/
theorem hierarchy_within_ram_budget :
    ENSEMBLE_HEADER_BYTES = 9 ∧ SERVICE_LIST_BYTES = 7 ∧ COMPONENT_LIST_BYTES = 4 ∧
    ceilingBytes = 9 + 20 * (7 + 4 * 4) ∧
    ceilingBytes = 469 ∧
    ceilingBytes ≤ RAM_BUDGET_BYTES ∧
    hierarchyBytes (getEnsemble wireMaxDevice emptyHeader 0).1 = 469 ∧
    (∀ (dev : DabDevice) (h : ensembleHeader_t) (serviceType : Nat),
      hierarchyBytes (getEnsemble dev h serviceType).1 ≤ ceilingBytes) := by
  refine ⟨rfl, rfl, rfl, rfl, rfl, by decide, by rfl, ?_⟩
  intro dev h serviceType
  have hcount : min (storeField 8 dev.numServices) MAX_NUMBER_SERVICES ≤ MAX_NUMBER_SERVICES :=
    min_le_right _ _
  simp only [hierarchyBytes, getEnsemble, getEnsembleHeader, ceilingBytes, List.map_map]
  refine Nat.add_le_add_left ?_ _
  refine le_trans (sum_map_le_length_mul _
    (SERVICE_LIST_BYTES + MAX_NUMBER_COMPONENTS * COMPONENT_LIST_BYTES) _ ?_) ?_
  · intro i _
    exact serviceBytes_decodeService_le (dev.service i)
  · simp only [List.length_range]
    exact Nat.mul_le_mul_right _ hcount

/-! ## Signal-quality record -/

/-- C18, evaluated on the header: the declared field widths of rsqInformation_t
sum to 145 bits (9 one-bit flags and 136 bits of byte-wide and wider fields),
one bit more than the 144 bits of the 18 bytes its comment states; the fields
need 19 bytes. -/
theorem rsqInformation_t_exceeds_18_bytes :
    rsqInformation_t_fields.length = 20 ∧
    sumWidths rsqInformation_t_fields = 145 ∧
    RSQ_INFORMATION_BYTES = 18 ∧
    ¬ (sumWidths rsqInformation_t_fields ≤ RSQ_INFORMATION_BYTES * 8) ∧
    (sumWidths rsqInformation_t_fields + 7) / 8 = 19 := by
  refine ⟨rfl, by decide, rfl, by decide, by decide⟩

end SI468x
